import Mathlib

/-!
# Verification of the gfycat-sdk client (src/src/es5-gfycat-sdk.js)

A shallow embedding of the ES5 gfycat SDK: the constructor, the endpoint
descriptor builders, and the request orchestrator (`_request`) in both the
callback and the promise calling convention, together with the
authentication flow (`authenticate`, `_setToken`).

JavaScript dynamic values are modelled by `JSVal`; object mutation is
modelled by threading the mutated object through the interpreter and
returning its final field values, so that mutation of a caller-supplied
descriptor object is observable in the result.  The asynchronous transport
(`./util/http_browser`) is an external collaborator and is modelled as a
pure function from the assembled HTTP request to a success body or a
failure value, as §6 of the specification describes.  Runs are fuelled;
every scenario proved below terminates well within its fuel.
-/

set_option autoImplicit false

namespace GfycatSdk

/-- A JavaScript value, as far as the SDK manipulates them: `undefined`,
`null`, booleans, numbers (the SDK only ever uses integral numbers),
strings and plain objects (ordered field lists). -/
inductive JSVal where
  | undefined : JSVal
  | null : JSVal
  | bool : Bool → JSVal
  | num : Int → JSVal
  | str : String → JSVal
  | obj : List (String × JSVal) → JSVal
deriving Repr

/-- JavaScript truthiness: `undefined`, `null`, `false`, `0` and `""` are
falsy; every other value (including the empty object) is truthy. -/
def jsTruthy : JSVal → Bool
  | .undefined => false
  | .null => false
  | .bool b => b
  | .num n => n != 0
  | .str s => s ≠ ""
  | .obj _ => true

/-- The JavaScript `typeof` operator.  Note `typeof null` is `"object"`. -/
def jsTypeof : JSVal → String
  | .undefined => "undefined"
  | .null => "object"
  | .bool _ => "boolean"
  | .num _ => "number"
  | .str _ => "string"
  | .obj _ => "object"

/-- `a || b`: `a` when truthy, else `b`. -/
def jsOr (a b : JSVal) : JSVal := if jsTruthy a then a else b

/-- Property read `v.k`: field lookup on objects, `undefined` otherwise
(no property access in the SDK dereferences a primitive). -/
def jsGet (v : JSVal) (k : String) : JSVal :=
  match v with
  | .obj fields => (fields.lookup k).getD .undefined
  | _ => .undefined

/-- `Object.prototype.hasOwnProperty` on a field list. -/
def hasOwn (fields : List (String × JSVal)) (k : String) : Bool :=
  (fields.lookup k).isSome

/-- Set (or overwrite) a field of an object field list, as the assignment
`o[k] = v` does.  The SDK only ever assigns onto genuine objects. -/
def objSet (fields : List (String × JSVal)) (k : String) (v : JSVal) :
    List (String × JSVal) :=
  if hasOwn fields k then
    fields.map (fun kv => if kv.1 = k then (k, v) else kv)
  else fields ++ [(k, v)]

/-- Loose equality with null, `v == null`: true exactly for `null` and
`undefined` (the comment in `_request` says "Using == intentionally to
match null and undefined"). -/
def jsLooseNull : JSVal → Bool
  | .null => true
  | .undefined => true
  | _ => false

/-- Strict equality test `err === 401` used by the retry dispatcher. -/
def jsIs401 : JSVal → Bool
  | .num n => n == 401
  | _ => false

/-! ## Client construction (lines 40-54 of the source)

`API_BASE_PATH` is a module-level variable (line 5); the constructor both
reads and, on the anonymous branch, writes it.  Construction is therefore
modelled as a function of the options argument and of the current module
base path, returning the constructed client (or the raised error) together
with the module base path after the call. -/

def API_HOSTNAME : String := "https://api.gfycat.com"

/-- Client state: credentials, timeout, the retry limit (always 2, line
53), the session token fields written by `_setToken`, and the `apiUrl`
captured at construction time. -/
structure Client where
  client_id : JSVal
  client_secret : JSVal
  timeout : JSVal
  retryLimit : Int
  access_token : JSVal
  token_type : JSVal
  apiUrl : String
deriving Repr

/-- Result of running the constructor: a client (with the module base path
after the call), the thrown configuration `Error` of line 49, or the
`TypeError` crash that a `null` argument produces at line 41 (since
`typeof null === "object"` holds and `null.hasOwnProperty` throws). -/
inductive CtorResult where
  | ok : Client → String → CtorResult
  | configError : String → CtorResult
  | typeErrorCrash : String → CtorResult
deriving Repr

/-- The constructor, lines 40-54.  The branch order of the source if-chain
is reproduced: an argument of `typeof` `"object"` (which includes `null`)
reaches the `hasOwnProperty` test first, so `null` crashes; an object with
both credential keys is accepted; any remaining argument goes to the
`typeof options === "undefined" || !options` test (anonymous mode, which
reassigns the module variable `API_BASE_PATH` to `/v1test`) and otherwise
to the thrown configuration error. -/
def GfycatSDK (options : JSVal) (basePath : String) : CtorResult :=
  match options with
  | .null => .typeErrorCrash basePath
  | .obj fields =>
      if hasOwn fields "client_id" && hasOwn fields "client_secret" then
        .ok
          { client_id := jsGet (.obj fields) "client_id"
            client_secret := jsGet (.obj fields) "client_secret"
            timeout := jsOr (jsGet (.obj fields) "timeout") (.num 30000)
            retryLimit := 2
            access_token := .undefined
            token_type := .undefined
            apiUrl := API_HOSTNAME ++ basePath }
          basePath
      else
        -- an object is truthy and its typeof is not "undefined", so the
        -- source if-chain falls through to the thrown error of line 49
        .configError basePath
  | v =>
      if jsTypeof v = "undefined" || !jsTruthy v then
        .ok
          { client_id := .undefined
            client_secret := .undefined
            timeout := .undefined
            retryLimit := 2
            access_token := .undefined
            token_type := .undefined
            apiUrl := API_HOSTNAME ++ "/v1test" }
          "/v1test"
      else
        .configError basePath

/-- The module base path after a constructor call, whatever its outcome. -/
def CtorResult.basePathAfter : CtorResult → String
  | .ok _ bp => bp
  | .configError bp => bp
  | .typeErrorCrash bp => bp

/-! ## Request descriptors and the transport collaborator -/

/-- The options object handed to `_request` by the endpoint methods:
fields `api`, `endpoint`, `method`, and the optional `payload`, `query`,
`headers`, `timeout` and `counter` fields (absent fields are
`undefined`). -/
structure ReqOptions where
  api : String
  endpoint : String
  method : String
  payload : JSVal := .undefined
  query : JSVal := .undefined
  headers : JSVal := .undefined
  timeout : JSVal := .undefined
  counter : JSVal := .undefined
deriving Repr

/-- The assembled transport request, `httpOptions.request` plus the
`timeout` field (lines 377-385). -/
structure HttpRequest where
  headers : JSVal
  method : String
  payload : JSVal
  url : String
  timeout : JSVal
deriving Repr

/-- A transport completion: the parsed response body handed to the
success continuation, or the failure value (an HTTP status number such as
`401`, or any other error value) handed to the failure continuation. -/
inductive TransportResult where
  | ok : JSVal → TransportResult
  | err : JSVal → TransportResult
deriving Repr

/-- The external transport collaborator (`httpService.request`), modelled
as a pure function of the assembled request. -/
def Transport : Type := HttpRequest → TransportResult

/-- `var counter = options.counter || 0` (line 347), read as a number.
The counter field is only ever `undefined` or a number. -/
def counterOf (v : JSVal) : Int :=
  match jsOr v (.num 0) with
  | .num n => n
  | _ => 0

/-- The in-place null strip of lines 367-372: delete every query entry
whose value is loosely equal to null. -/
def stripNulls (l : List (String × JSVal)) : List (String × JSVal) :=
  l.filter (fun kv => !jsLooseNull kv.2)

/-- Rendering of a scalar for the query encoder. -/
def jsScalarString : JSVal → String
  | .str s => s
  | .num n => toString n
  | .bool b => if b then "true" else "false"
  | _ => ""

/-- The query-encoder collaborator (`qs.stringify`) on a flat mapping:
URL-encodes `k=v` pairs joined by `&`, no leading question mark (spec
§6).  Its exact escaping is irrelevant to every claim below. -/
def stringifyQS (l : List (String × JSVal)) : String :=
  String.intercalate "&" (l.map (fun kv => kv.1 ++ "=" ++ jsScalarString kv.2))

/-- Lines 354-360: when a session token is stored, the headers object is
created if `undefined` and the `Authorization` field is assigned the raw
`this.access_token` (note the computed `"Bearer " + token` string of line
355 is NOT what line 359 assigns).  The SDK never reaches this assignment
with a non-object, non-undefined headers value. -/
def headersAfterToken (c : Client) (h : JSVal) : JSVal :=
  if jsTruthy c.access_token then
    let fields := match h with
      | .obj fields => fields
      | _ => []
    .obj (objSet fields "Authorization" c.access_token)
  else h

/-- Lines 362-375, effect on `options.query`: when the query is an object
with at least one key, its null-or-undefined entries are deleted in
place; otherwise it is left alone.  (The key count of line 364 is read
BEFORE the deletions, so a query of only null entries still yields a bare
`?` suffix.) -/
def queryAfterStrip (q : JSVal) : JSVal :=
  match q with
  | .obj l => if l.length ≠ 0 then .obj (stripNulls l) else q
  | _ => q

/-- The mapping handed to the query-encoder collaborator (empty when the
encoder is not invoked at all). -/
def encInput (q : JSVal) : List (String × JSVal) :=
  match q with
  | .obj l => if l.length ≠ 0 then stripNulls l else []
  | _ => []

/-- Lines 362-375, the query-string suffix of the URL. -/
def queryStringOf (q : JSVal) : String :=
  match q with
  | .obj l => if l.length ≠ 0 then "?" ++ stringifyQS (stripNulls l) else ""
  | _ => ""

/-- Lines 354-385 of `_request`: attach the session token to the headers
(mutating `options.headers`), strip null query entries (mutating
`options.query`), build the query string and assemble the transport
request.  Returns the mutated descriptor, the assembled request, and the
mapping that was handed to the query encoder. -/
def prepare (c : Client) (opts : ReqOptions) :
    ReqOptions × HttpRequest × List (String × JSVal) :=
  let opts2 := { opts with headers := headersAfterToken c opts.headers
                           query := queryAfterStrip opts.query }
  (opts2,
   { headers := jsOr opts2.headers .null
     method := opts2.method
     payload := jsOr opts2.payload .null
     url := c.apiUrl ++ opts2.api ++ opts2.endpoint ++ queryStringOf opts.query
     timeout := jsOr opts2.timeout c.timeout },
   encInput opts.query)

/-- `err === 401 && options.api !== "/oauth"` (lines 394 and 417): the
condition under which a transport failure triggers re-authentication. -/
def shouldReauth (e : JSVal) (api : String) : Bool :=
  jsIs401 e && api ≠ "/oauth"

/-- `_setToken` (lines 433-436). -/
def _setToken (c : Client) (res : JSVal) : Client :=
  { c with access_token := jsGet res "access_token"
           token_type := jsGet res "token_type" }

/-- The descriptor `authenticate` builds at lines 73-82 from its options
argument and the stored credentials. -/
def authRequestOpts (aopts : JSVal) (c : Client) : ReqOptions :=
  { api := "/oauth"
    endpoint := "/token"
    method := "POST"
    payload := .obj
      [("client_id", jsOr (jsGet aopts "client_id") c.client_id),
       ("client_secret", jsOr (jsGet aopts "client_secret") c.client_secret),
       ("grant_type", jsOr (jsGet aopts "grant_type") (.str "client_credentials"))] }

/-- The credential guard of `authenticate`, line 69. -/
def missingCreds (c : Client) (aopts : JSVal) : Bool :=
  !(jsTruthy c.client_id || jsTruthy c.client_secret) &&
  !(jsTruthy (jsGet aopts "client_id") || jsTruthy (jsGet aopts "client_secret"))

/-! ## The promise calling convention (no callback supplied)

Lines 409-430 of `_request` and lines 93-102 of `authenticate`.  A run
yields the settled state of the returned promise, the client state after
the run, the list of transport dispatches in order, and (for `_request`)
the final field values of the caller-supplied descriptor object, which
the source mutates in place (`options.headers`, `options.query`,
`options.counter`). -/

/-- How the promise returned to the caller settles. -/
inductive Outcome where
  | fulfilled : JSVal → Outcome
  | rejected : JSVal → Outcome
  | outOfFuel : Outcome
deriving Repr

/-- Result of a promise-mode run. -/
structure POut where
  outcome : Outcome
  client : Client
  log : List HttpRequest
deriving Repr

mutual

/-- `_request(options)` with no callback, lines 338-352 and 409-430.
When `counter >= retryLimit` the promise branch returns a rejection with
the string `"Retry limit reached"` (line 351).  Otherwise the request is
prepared and dispatched; success fulfils with the body; a 401 failure of
a non-oauth descriptor awaits `authenticate({})` and, when that promise
fulfils, re-enters `_request` with the same (mutated) descriptor object
whose `counter` field was assigned `counter + 1` (lines 417-425); any
other failure rejects with the error unchanged. -/
def requestP (fuel : Nat) (c : Client) (opts : ReqOptions) (t : Transport) :
    POut × ReqOptions :=
  match fuel with
  | 0 => ({ outcome := .outOfFuel, client := c, log := [] }, opts)
  | Nat.succ fuel =>
    let counter := counterOf opts.counter
    if counter ≥ c.retryLimit then
      ({ outcome := .rejected (.str "Retry limit reached"), client := c, log := [] }, opts)
    else
      let (opts1, req, _) := prepare c opts
      match t req with
      | .ok v => ({ outcome := .fulfilled v, client := c, log := [req] }, opts1)
      | .err e =>
        if shouldReauth e opts1.api then
          let a := authenticateP fuel c (.obj []) t
          match a.outcome with
          | .fulfilled _ =>
              let opts2 := { opts1 with counter := .num (counter + 1) }
              let (r, opts3) := requestP fuel a.client opts2 t
              ({ outcome := r.outcome, client := r.client,
                 log := req :: (a.log ++ r.log) }, opts3)
          | .rejected ae =>
              ({ outcome := .rejected ae, client := a.client,
                 log := req :: a.log }, opts1)
          | .outOfFuel =>
              ({ outcome := .outOfFuel, client := a.client,
                 log := req :: a.log }, opts1)
        else
          ({ outcome := .rejected e, client := c, log := [req] }, opts1)

/-- `authenticate(options)` with no callback, lines 67-82 and 93-102.
The credential guard rejects; otherwise the token request is dispatched
through `_request`.  The source `.then` handler calls `_setToken` and
then evaluates `Promise.resolve(res)` WITHOUT returning it, and the
`.catch` handler evaluates `Promise.reject(err)` WITHOUT returning it:
both handlers return `undefined`, so the promise handed back to the
caller fulfils with `undefined` in both cases — the response body and
any request error are dropped. -/
def authenticateP (fuel : Nat) (c : Client) (aoptions : JSVal) (t : Transport) :
    POut :=
  match fuel with
  | 0 => { outcome := .outOfFuel, client := c, log := [] }
  | Nat.succ fuel =>
    let aopts := if jsTruthy aoptions then aoptions else .obj []
    if missingCreds c aopts then
      { outcome := .rejected (.str "Please provide client_id and client_secret in options")
        client := c, log := [] }
    else
      let (r, _) := requestP fuel c (authRequestOpts aopts c) t
      match r.outcome with
      | .fulfilled res =>
          { outcome := .fulfilled .undefined, client := _setToken r.client res, log := r.log }
      | .rejected _ =>
          { outcome := .fulfilled .undefined, client := r.client, log := r.log }
      | .outOfFuel => { outcome := .outOfFuel, client := r.client, log := r.log }

end

/-! ## The callback calling convention

Lines 389-407 of `_request` and lines 86-92 of `authenticate`.  The
observable is the ordered list of callback invocations: the source does
NOT return after signalling `"Retry limit reached"` through the callback
(line 350 has no `return`), so a single logical call can invoke its
callback more than once. -/

/-- One invocation of a completion callback: `callback(null, res)` or
`callback(err)` (the result slot left `undefined`). -/
inductive CbCall where
  | ok : JSVal → CbCall
  | err : JSVal → CbCall
deriving Repr

/-- Result of a callback-mode run.  `fuelOk` is false when the run was
cut off by fuel (the callback convention can recurse unboundedly, see
theorem the C2 analysis relies on). -/
structure CbOut where
  calls : List CbCall
  client : Client
  log : List HttpRequest
  fuelOk : Bool
deriving Repr

/-- The body of the callback `authenticate` passes to `_request` (lines
87-92): for each invocation, on success store the token and forward
`(null, res)`; on error forward the error. -/
def authFoldC (c : Client) : List CbCall → List CbCall × Client
  | [] => ([], c)
  | .ok res :: rest =>
      let c1 := _setToken c res
      let (cs, c2) := authFoldC c1 rest
      (.ok res :: cs, c2)
  | .err e :: rest =>
      let (cs, c1) := authFoldC c rest
      (.err e :: cs, c1)

mutual

/-- `_request(options, callback)`, lines 338-352 and 389-407.  When
`counter >= retryLimit` the callback is invoked with
`"Retry limit reached"` but — with no `return` — preparation and
dispatch still proceed.  On a 401 of a non-oauth descriptor the reject
handler runs `authenticate({}, cb)` and, for each completion of that
callback, either forwards the error or assigns `counter + 1` into the
same descriptor object and re-enters `_request` (lines 393-405). -/
def requestC (fuel : Nat) (c : Client) (opts : ReqOptions) (t : Transport) :
    CbOut × ReqOptions :=
  match fuel with
  | 0 => ({ calls := [], client := c, log := [], fuelOk := false }, opts)
  | Nat.succ fuel =>
    let counter := counterOf opts.counter
    let calls0 : List CbCall :=
      if counter ≥ c.retryLimit then [.err (.str "Retry limit reached")] else []
    let (opts1, req, _) := prepare c opts
    match t req with
    | .ok v =>
        ({ calls := calls0 ++ [.ok v], client := c, log := [req], fuelOk := true }, opts1)
    | .err e =>
        if shouldReauth e opts1.api then
          let a := authenticateC fuel c (.obj []) t
          let (f, opts2) := retryFoldC fuel a.client opts1 t counter a.calls
          ({ calls := calls0 ++ f.calls, client := f.client,
             log := req :: (a.log ++ f.log), fuelOk := a.fuelOk && f.fuelOk }, opts2)
        else
          ({ calls := calls0 ++ [.err e], client := c, log := [req], fuelOk := true }, opts1)

/-- The callback `_request` hands to `authenticate` at lines 395-401,
applied to each completion of the authentication callback in order:
errors are forwarded to the top-level callback; a success mutates the
descriptor counter to `counter + 1` and re-enters `_request`. -/
def retryFoldC (fuel : Nat) (c : Client) (opts : ReqOptions) (t : Transport)
    (counter : Int) (calls : List CbCall) : CbOut × ReqOptions :=
  match fuel with
  | 0 => ({ calls := [], client := c, log := [], fuelOk := false }, opts)
  | Nat.succ fuel =>
    match calls with
    | [] => ({ calls := [], client := c, log := [], fuelOk := true }, opts)
    | .err e :: rest =>
        let (f, opts1) := retryFoldC fuel c opts t counter rest
        ({ calls := .err e :: f.calls, client := f.client, log := f.log,
           fuelOk := f.fuelOk }, opts1)
    | .ok _ :: rest =>
        let optsR := { opts with counter := .num (counter + 1) }
        let (r, opts1) := requestC fuel c optsR t
        let (f, opts2) := retryFoldC fuel r.client opts1 t counter rest
        ({ calls := r.calls ++ f.calls, client := f.client, log := r.log ++ f.log,
           fuelOk := r.fuelOk && f.fuelOk }, opts2)

/-- `authenticate(options, callback)`, lines 67-92: the credential guard
invokes the callback with the error message; otherwise the token request
runs through `_request` and each completion is folded through the
token-storing wrapper. -/
def authenticateC (fuel : Nat) (c : Client) (aoptions : JSVal) (t : Transport) :
    CbOut :=
  match fuel with
  | 0 => { calls := [], client := c, log := [], fuelOk := false }
  | Nat.succ fuel =>
    let aopts := if jsTruthy aoptions then aoptions else .obj []
    if missingCreds c aopts then
      { calls := [.err (.str "Please provide client_id and client_secret in options")]
        client := c, log := [], fuelOk := true }
    else
      let (r, _) := requestC fuel c (authRequestOpts aopts c) t
      let (cs, c1) := authFoldC r.client r.calls
      { calls := cs, client := c1, log := r.log, fuelOk := r.fuelOk }

end

/-! ## The endpoint method catalog (lines 114-323)

Each method builds its descriptor object literal from the options
mapping; the builders below are verbatim translations.  A method body is
then a dispatch to `_request`, with or without the callback argument. -/

/-- `getCategories` descriptor, lines 114-128. -/
def getCategoriesOpts (o : JSVal) : ReqOptions :=
  let o := if jsTruthy o then o else .obj []
  { api := "/reactions", endpoint := "/populated", method := "GET"
    query := .obj
      [("gfyCount", jsOr (jsGet o "gfyCount") (.num 1)),
       ("count", jsOr (jsGet o "count") .null),
       ("cursor", jsOr (jsGet o "cursor") .null),
       ("locale", jsOr (jsGet o "locale") .null)] }

/-- `getTrendingCategories` descriptor, lines 144-157. -/
def getTrendingCategoriesOpts (o : JSVal) : ReqOptions :=
  let o := if jsTruthy o then o else .obj []
  { api := "/reactions", endpoint := "/populated", method := "GET"
    query := .obj
      [("gfyCount", jsOr (jsGet o "gfyCount") (.num 1)),
       ("cursor", jsOr (jsGet o "cursor") .null),
       ("tagName", jsOr (jsGet o "tagName") (.str "trending"))] }

/-- `getTrending` descriptor, lines 169-182. -/
def getTrendingOpts (o : JSVal) : ReqOptions :=
  let o := if jsTruthy o then o else .obj []
  { api := "/gfycats", endpoint := "/trending", method := "GET"
    query := .obj
      [("count", jsOr (jsGet o "count") (.num 100)),
       ("cursor", jsOr (jsGet o "cursor") .null),
       ("tagName", jsOr (jsGet o "tagName") .null)] }

/-- `getTrendingTags` descriptor, lines 191-199 (no query object). -/
def getTrendingTagsOpts (_o : JSVal) : ReqOptions :=
  { api := "/tags", endpoint := "/trending", method := "GET" }

/-- `getTrendingTagsPopulated` descriptor, lines 210-223. -/
def getTrendingTagsPopulatedOpts (o : JSVal) : ReqOptions :=
  let o := if jsTruthy o then o else .obj []
  { api := "/tags", endpoint := "/trending/populated", method := "GET"
    query := .obj
      [("count", jsOr (jsGet o "count") (.num 100)),
       ("cursor", jsOr (jsGet o "cursor") .null),
       ("gfyCount", jsOr (jsGet o "gfyCount") (.num 1))] }

/-- `search` descriptor, lines 235-247 (no guard against an absent
options argument in the source; `search_text` is forwarded raw). -/
def searchOpts (o : JSVal) : ReqOptions :=
  { api := "/gfycats", endpoint := "/search", method := "GET"
    query := .obj
      [("search_text", jsGet o "search_text"),
       ("count", jsOr (jsGet o "count") (.num 100)),
       ("start", jsOr (jsGet o "start") .null),
       ("cursor", jsOr (jsGet o "cursor") .null)] }

/-- String coercion used by the source path concatenations
`"/" + options.id`. -/
def jsConcatString : JSVal → String
  | .str s => s
  | .num n => toString n
  | .bool b => if b then "true" else "false"
  | .null => "null"
  | .undefined => "undefined"
  | .obj _ => "[object Object]"

/-- `searchById` descriptor, lines 256-262. -/
def searchByIdOpts (o : JSVal) : ReqOptions :=
  { api := "/gfycats", endpoint := "/" ++ jsConcatString (jsGet o "id")
    method := "GET" }

/-- `getRelatedContent` descriptor, lines 271-282 (query values are
forwarded raw, without null defaults). -/
def getRelatedContentOpts (o : JSVal) : ReqOptions :=
  { api := "/gfycats", endpoint := "/" ++ jsConcatString (jsGet o "id") ++ "/related"
    method := "GET"
    query := .obj
      [("cursor", jsGet o "cursor"),
       ("count", jsGet o "count"),
       ("from", jsGet o "from")] }

/-- `artifacts` descriptor, lines 290-303. -/
def artifactsOpts (o : JSVal) : ReqOptions :=
  { api := "/gifartifacts", endpoint := ""
    headers := .obj [("Content-Type", .str "application/x-www-form-urlencoded")]
    method := "POST"
    payload := .obj
      [("uploadKey", jsGet o "uploadKey"),
       ("tags", jsGet o "tags")] }

/-- `stickers` descriptor, lines 312-323. -/
def stickersOpts (o : JSVal) : ReqOptions :=
  { api := "/stickers"
    endpoint := if jsTruthy (jsGet o "search_text") then "/search" else ""
    method := "GET"
    query := .obj
      [("cursor", jsGet o "cursor"),
       ("count", jsGet o "count"),
       ("search_text", jsGet o "search_text")] }

/-- A completed endpoint-method call: which convention `_request` ran
under, with that convention's observables and the final state of the
descriptor object. -/
inductive CallResult where
  | viaCallback : CbOut → ReqOptions → CallResult
  | viaPromise : POut → ReqOptions → CallResult
deriving Repr

/-- Whether the run used the callback convention. -/
def CallResult.usedCallback : CallResult → Bool
  | .viaCallback _ _ => true
  | .viaPromise _ _ => false

/-- `this._request(opts, callback)` when a callback was supplied, else
`this._request(opts)`. -/
def dualRequest (fuel : Nat) (c : Client) (opts : ReqOptions) (t : Transport)
    (withCb : Bool) : CallResult :=
  if withCb then
    let (r, fo) := requestC fuel c opts t
    .viaCallback r fo
  else
    let (r, fo) := requestP fuel c opts t
    .viaPromise r fo

/-- `search(options, callback)`: forwards the callback (line 246). -/
def search (fuel : Nat) (c : Client) (o : JSVal) (t : Transport)
    (withCb : Bool) : CallResult :=
  dualRequest fuel c (searchOpts o) t withCb

/-- `getTrending(options, callback)`: forwards the callback (line 181). -/
def getTrending (fuel : Nat) (c : Client) (o : JSVal) (t : Transport)
    (withCb : Bool) : CallResult :=
  dualRequest fuel c (getTrendingOpts o) t withCb

/-- `stickers(options, callback)`: the source call at lines 313-322 is
`this._request({...})` — the callback parameter is NOT forwarded, so the
promise branch of `_request` always runs and a supplied callback is never
invoked, contrary to the doc comment of the method (lines 305-311). -/
def stickers (fuel : Nat) (c : Client) (o : JSVal) (t : Transport)
    (_withCb : Bool) : CallResult :=
  dualRequest fuel c (stickersOpts o) t false

/-! ## Concrete fixtures for the scenario runs -/

/-- A client constructed with valid credentials while the module base
path is still `/v1` (the stored state of lines 42-44 and 52-53). -/
def credClient : Client :=
  { client_id := .str "my-id", client_secret := .str "my-secret"
    timeout := .num 30000, retryLimit := 2
    access_token := .undefined, token_type := .undefined
    apiUrl := "https://api.gfycat.com/v1" }

/-- The URL every token request of `credClient` is dispatched to. -/
def oauthTokenUrl : String := "https://api.gfycat.com/v1/oauth/token"

/-- A transport that answers every token request with a fresh token and
fails every other request with status 401. -/
def tOp401AuthOk : Transport := fun req =>
  if req.url = oauthTokenUrl then
    .ok (.obj [("access_token", .str "tok"), ("token_type", .str "bearer")])
  else .err (.num 401)

/-- A transport that fails every request — token requests included —
with status 401. -/
def tAll401 : Transport := fun _ => .err (.num 401)

/-- A transport that always succeeds with the body `"yay"`. -/
def tAllOk : Transport := fun _ => .ok (.str "yay")

/-- A transport that always fails with the error value `"boom"`. -/
def tAllErr : Transport := fun _ => .err (.str "boom")

/-- The client produced by the anonymous-mode branch of the constructor
(lines 45-53): no credentials, no timeout, and an `apiUrl` built on the
reassigned `/v1test` base path. -/
def anonClient : Client :=
  { client_id := .undefined, client_secret := .undefined
    timeout := .undefined, retryLimit := 2
    access_token := .undefined, token_type := .undefined
    apiUrl := API_HOSTNAME ++ "/v1test" }

/-- A descriptor whose query mapping holds a zero, a null and an
empty-string value, exercising the null strip. -/
def demoQueryOpts : ReqOptions :=
  { api := "/gfycats", endpoint := "/search", method := "GET"
    query := .obj [("a", .num 0), ("b", .null), ("c", .str ""), ("d", .undefined)] }

end GfycatSdk

/-! # The claims -/

namespace GfycatSdk

/-! Shared helper lemmas about the query strip and object lookup. -/

/-- Every entry of the mapping handed to the query encoder survived the
`== null` filter of lines 367-372. -/
theorem mem_encInput_not_null (q : JSVal) (kv : String × JSVal)
    (h : kv ∈ encInput q) : jsLooseNull kv.2 = false := by
  cases q with
  | obj l =>
      have he : encInput (.obj l) = if l.length ≠ 0 then stripNulls l else [] := rfl
      rw [he] at h
      by_cases hl : l.length ≠ 0
      · rw [if_pos hl] at h
        have h2 := List.of_mem_filter h
        simpa using h2
      · rw [if_neg hl] at h
        cases h
  | undefined => cases h
  | null => cases h
  | bool b => cases h
  | num n => cases h
  | str s => cases h

/-- An entry whose value is not loosely null survives the strip into the
encoder input. -/
theorem mem_encInput_keeps (l : List (String × JSVal)) (k : String) (v : JSVal)
    (hv : jsLooseNull v = false) (h : (k, v) ∈ l) :
    (k, v) ∈ encInput (.obj l) := by
  have he : encInput (.obj l) = if l.length ≠ 0 then stripNulls l else [] := rfl
  rw [he]
  have hl : l.length ≠ 0 := by
    intro h0
    rw [List.length_eq_zero] at h0
    subst h0
    cases h
  rw [if_pos hl]
  exact List.mem_filter.mpr ⟨h, by simp [hv]⟩

/-- Reading an absent property yields `undefined`. -/
theorem jsGet_obj_of_not_hasOwn (fs : List (String × JSVal)) (k : String)
    (h : hasOwn fs k = false) : jsGet (.obj fs) k = .undefined := by
  unfold hasOwn at h
  show (fs.lookup k).getD .undefined = .undefined
  cases hl : fs.lookup k with
  | none => rfl
  | some v => rw [hl] at h; simp at h

/-- **C1, counterexample.**  The claim says an operation whose dispatches
all fail with 401 surfaces the final 401-derived underlying error, not a
generic retry message.  Concretely: `credClient.getTrending({})` in the
promise convention, against a transport that 401s every operation
dispatch while re-authentication succeeds, exhausts the retry limit and
the promise rejects with the generic string `"Retry limit reached"`
(line 351) — the underlying 401 is not surfaced. -/
theorem C1_counterexample :
    (requestP 9 credClient (getTrendingOpts (.obj [])) tOp401AuthOk).1.outcome
      = .rejected (.str "Retry limit reached") := rfl

/-- **C1, amended.**  A promise-convention operation whose every dispatch
fails with 401 (re-authentication succeeding) is dispatched exactly
`retryLimit` (= 2) times and then fails with the generic string
`"Retry limit reached"`, not with the last 401-derived error.  (In the
callback convention an always-401 transport instead surfaces the 401 of
the failed re-authentication after a single operation dispatch.) -/
theorem C1_amended :
    credClient.retryLimit = 2 ∧
    (requestP 9 credClient (getTrendingOpts (.obj [])) tOp401AuthOk).1.outcome
      = .rejected (.str "Retry limit reached") ∧
    (((requestP 9 credClient (getTrendingOpts (.obj [])) tOp401AuthOk).1.log.filter
        (fun r => r.url ≠ oauthTokenUrl)).length) = 2 ∧
    (requestC 9 credClient (getTrendingOpts (.obj [])) tAll401).1.calls
      = [.err (.num 401)] ∧
    (((requestC 9 credClient (getTrendingOpts (.obj [])) tAll401).1.log.filter
        (fun r => r.url ≠ oauthTokenUrl)).length) = 1 :=
  ⟨rfl, rfl, rfl, rfl, rfl⟩

/-- **C2.**  The claim says a descriptor whose counter has reached
`retryLimit` fails terminally with no further transport dispatch in both
conventions.  The promise branch does return (line 351), but the callback
branch of line 350 lacks a `return`: with `counter = 2 = retryLimit` the
callback is first invoked with `"Retry limit reached"` and the request is
nevertheless prepared, dispatched (one transport call in the log), and the
callback is invoked a second time with the transport result.  Moreover
under an always-401-operation transport the callback-mode retry recursion
pushes the counter of the descriptor to 3 > retryLimit before fuel runs
out. -/
theorem C2_behavior :
    (requestC 9 credClient { getTrendingOpts (.obj []) with counter := .num 2 }
        tAllOk).1.calls
      = [.err (.str "Retry limit reached"), .ok (.str "yay")] ∧
    (requestC 9 credClient { getTrendingOpts (.obj []) with counter := .num 2 }
        tAllOk).1.log.length = 1 ∧
    (requestP 9 credClient { getTrendingOpts (.obj []) with counter := .num 2 }
        tAllOk).1.log.length = 0 ∧
    (requestC 7 credClient (getTrendingOpts (.obj [])) tOp401AuthOk).2.counter
      = .num 3 :=
  ⟨rfl, rfl, rfl, rfl⟩

/-- **C3.**  The claim says promise-mode `authenticate` rejects with the
request error on failure and fulfils with the authentication response
body on success.  In the source the `.then` handler (lines 95-98) calls
`_setToken` but evaluates `Promise.resolve(res)` without returning it,
and the `.catch` handler (lines 99-101) evaluates `Promise.reject(err)`
without returning it; both handlers therefore return `undefined`, so the
promise handed to the caller FULFILS with `undefined` in both cases: the
error is swallowed and the body is dropped (the token is still
stored). -/
theorem C3_behavior :
    (authenticateP 9 credClient (.obj []) tAllErr).outcome = .fulfilled .undefined ∧
    (authenticateP 9 credClient (.obj []) tOp401AuthOk).outcome
      = .fulfilled .undefined ∧
    (authenticateP 9 credClient (.obj []) tOp401AuthOk).client.access_token
      = .str "tok" :=
  ⟨rfl, rfl, rfl⟩

/-- **C4.**  The claim says each 401 retry re-dispatches a fresh
descriptor copy and the caller-supplied descriptor object is not mutated.
In the source the retry path executes `options.counter = counter + 1`
(lines 398 and 420) on the very object the caller passed and re-enters
`_request` with it; the token attach of line 359 likewise assigns into
the same object.  After the retried `getTrending` run the caller's
descriptor — whose `counter` and `headers` fields started `undefined` —
carries `counter = 2` and an `Authorization` header. -/
theorem C4_behavior :
    (getTrendingOpts (.obj [])).counter = .undefined ∧
    (getTrendingOpts (.obj [])).headers = .undefined ∧
    (requestP 9 credClient (getTrendingOpts (.obj [])) tOp401AuthOk).2.counter
      = .num 2 ∧
    (requestP 9 credClient (getTrendingOpts (.obj [])) tOp401AuthOk).2.headers
      = .obj [("Authorization", .str "tok")] :=
  ⟨rfl, rfl, rfl, rfl⟩

/-- **C5.**  The claim says every endpoint method invoked with a callback
completes through that callback.  `stickers` does not: its body (lines
313-322) calls `this._request({...})` without forwarding the `callback`
parameter, so the callback convention is never used — `_request` takes
the promise branch and a supplied callback is never invoked, contrary to
the doc comment of the method itself (lines 305-311).  For contrast,
`search` under the same conditions does run the callback convention. -/
theorem C5_behavior :
    (stickers 9 credClient (.obj [("search_text", .str "cats")]) tAllOk
        true).usedCallback = false ∧
    (search 9 credClient (.obj [("search_text", .str "cats")]) tAllOk
        true).usedCallback = true :=
  ⟨rfl, rfl⟩

/-- **C6.**  The mapping the orchestrator hands to the query-encoder
collaborator (`(prepare c opts).2.2`, the result of the in-place strip of
lines 362-375) contains no entry whose value is null or undefined, for
every input descriptor; and entries whose value is the number zero or the
empty string are never stripped. -/
theorem C6_query_no_nulls :
    (∀ (c : Client) (opts : ReqOptions) (kv : String × JSVal),
        kv ∈ (prepare c opts).2.2 → jsLooseNull kv.2 = false) ∧
    (∀ (c : Client) (opts : ReqOptions) (l : List (String × JSVal)) (k : String),
        opts.query = .obj l → (k, JSVal.num 0) ∈ l →
        (k, JSVal.num 0) ∈ (prepare c opts).2.2) ∧
    (∀ (c : Client) (opts : ReqOptions) (l : List (String × JSVal)) (k : String),
        opts.query = .obj l → (k, JSVal.str "") ∈ l →
        (k, JSVal.str "") ∈ (prepare c opts).2.2) := by
  refine ⟨?_, ?_, ?_⟩
  · intro c opts kv hmem
    exact mem_encInput_not_null opts.query kv hmem
  · intro c opts l k hq hmem
    show (k, JSVal.num 0) ∈ encInput opts.query
    rw [hq]
    exact mem_encInput_keeps l k (.num 0) rfl hmem
  · intro c opts l k hq hmem
    show (k, JSVal.str "") ∈ encInput opts.query
    rw [hq]
    exact mem_encInput_keeps l k (.str "") rfl hmem

/-- **C6, witness.**  The strip applied to the query mapping
`a: 0, b: null, c: "", d: undefined`: the zero and empty-string entries
reach the encoder and no surviving entry is loosely null. -/
theorem C6_witness :
    ("a", JSVal.num 0) ∈ (prepare credClient demoQueryOpts).2.2 ∧
    ("c", JSVal.str "") ∈ (prepare credClient demoQueryOpts).2.2 ∧
    jsLooseNull (JSVal.num 0) = false :=
  ⟨C6_query_no_nulls.2.1 credClient demoQueryOpts _ "a" rfl (by simp [demoQueryOpts]),
   C6_query_no_nulls.2.2 credClient demoQueryOpts _ "c" rfl (by simp [demoQueryOpts]),
   C6_query_no_nulls.1 credClient demoQueryOpts ("a", .num 0) (by
     simp [prepare, encInput, stripNulls, demoQueryOpts, jsLooseNull])⟩

/-- **C7, counterexample.**  The claim says every omitted optional field
yields a descriptor carrying exactly its documented default.  The
`search` method documents `start` as "(optional) results offset, defaults
to 0" (source line 231), yet line 243 forwards `start: options.start ||
null`: with `start` omitted the descriptor carries `null` — never the
documented 0 — and the entry is then stripped from the encoder input
entirely (only `count` survives an otherwise-empty search options
object). -/
theorem C7_counterexample :
    jsGet (searchOpts (.obj [])).query "start" = .null ∧
    (prepare credClient (searchOpts (.obj []))).2.2 = [("count", .num 100)] :=
  ⟨rfl, rfl⟩

/-- **C7, amended.**  Every endpoint-method descriptor carries the
documented default for each optional field with a code-level default
omitted from the options mapping: `getTrending` count 100;
`getCategories` gfyCount 1; `getTrendingCategories` gfyCount 1 and
tagName `"trending"`; `getTrendingTagsPopulated` count 100 and gfyCount
1; `search` count 100; and the `authenticate` payload grant_type
`"client_credentials"`.  The exception the counterexample forces:
`search` with `start` omitted forwards `start = null` — despite its doc
comment saying it defaults to 0 — so the stripped query defers to the
service-side offset default instead of carrying 0. -/
theorem C7_defaults :
    (∀ fs, hasOwn fs "count" = false →
      jsGet (getTrendingOpts (.obj fs)).query "count" = .num 100) ∧
    (∀ fs, hasOwn fs "gfyCount" = false →
      jsGet (getCategoriesOpts (.obj fs)).query "gfyCount" = .num 1) ∧
    (∀ fs, hasOwn fs "gfyCount" = false →
      jsGet (getTrendingCategoriesOpts (.obj fs)).query "gfyCount" = .num 1) ∧
    (∀ fs, hasOwn fs "tagName" = false →
      jsGet (getTrendingCategoriesOpts (.obj fs)).query "tagName" = .str "trending") ∧
    (∀ fs, hasOwn fs "count" = false →
      jsGet (getTrendingTagsPopulatedOpts (.obj fs)).query "count" = .num 100) ∧
    (∀ fs, hasOwn fs "gfyCount" = false →
      jsGet (getTrendingTagsPopulatedOpts (.obj fs)).query "gfyCount" = .num 1) ∧
    (∀ fs, hasOwn fs "count" = false →
      jsGet (searchOpts (.obj fs)).query "count" = .num 100) ∧
    (∀ (c : Client) fs, hasOwn fs "grant_type" = false →
      jsGet (authRequestOpts (.obj fs) c).payload "grant_type"
        = .str "client_credentials") ∧
    (∀ fs, hasOwn fs "start" = false →
      jsGet (searchOpts (.obj fs)).query "start" = .null) := by
  refine ⟨?_, ?_, ?_, ?_, ?_, ?_, ?_, ?_, ?_⟩
  · intro fs h
    show jsOr (jsGet (.obj fs) "count") (.num 100) = .num 100
    rw [jsGet_obj_of_not_hasOwn fs "count" h]
    rfl
  · intro fs h
    show jsOr (jsGet (.obj fs) "gfyCount") (.num 1) = .num 1
    rw [jsGet_obj_of_not_hasOwn fs "gfyCount" h]
    rfl
  · intro fs h
    show jsOr (jsGet (.obj fs) "gfyCount") (.num 1) = .num 1
    rw [jsGet_obj_of_not_hasOwn fs "gfyCount" h]
    rfl
  · intro fs h
    show jsOr (jsGet (.obj fs) "tagName") (.str "trending") = .str "trending"
    rw [jsGet_obj_of_not_hasOwn fs "tagName" h]
    rfl
  · intro fs h
    show jsOr (jsGet (.obj fs) "count") (.num 100) = .num 100
    rw [jsGet_obj_of_not_hasOwn fs "count" h]
    rfl
  · intro fs h
    show jsOr (jsGet (.obj fs) "gfyCount") (.num 1) = .num 1
    rw [jsGet_obj_of_not_hasOwn fs "gfyCount" h]
    rfl
  · intro fs h
    show jsOr (jsGet (.obj fs) "count") (.num 100) = .num 100
    rw [jsGet_obj_of_not_hasOwn fs "count" h]
    rfl
  · intro c fs h
    show jsOr (jsGet (.obj fs) "grant_type") (.str "client_credentials")
      = .str "client_credentials"
    rw [jsGet_obj_of_not_hasOwn fs "grant_type" h]
    rfl
  · intro fs h
    show jsOr (jsGet (.obj fs) "start") .null = .null
    rw [jsGet_obj_of_not_hasOwn fs "start" h]
    rfl

/-- **C7, witness.**  The defaults on fully-empty options objects,
including the null forwarded for the omitted search `start`. -/
theorem C7_witness :
    jsGet (getTrendingOpts (.obj [])).query "count" = .num 100 ∧
    jsGet (getCategoriesOpts (.obj [])).query "gfyCount" = .num 1 ∧
    jsGet (getTrendingCategoriesOpts (.obj [])).query "tagName" = .str "trending" ∧
    jsGet (authRequestOpts (.obj []) credClient).payload "grant_type"
      = .str "client_credentials" ∧
    jsGet (searchOpts (.obj [])).query "start" = .null :=
  ⟨C7_defaults.1 [] rfl, C7_defaults.2.1 [] rfl, C7_defaults.2.2.2.1 [] rfl,
   C7_defaults.2.2.2.2.2.2.2.1 credClient [] rfl,
   C7_defaults.2.2.2.2.2.2.2.2 [] rfl⟩

/-- **C8.**  A 401 failure of a dispatch whose descriptor targets the
authentication endpoint (`api = "/oauth"`) triggers no re-authentication:
in both conventions there is exactly one transport dispatch and the 401
propagates to the caller unchanged (promise rejection with `401`;
callback invoked once with `401`).  Conversely the retry guard
`err === 401 && options.api !== "/oauth"` fires only for 401 failures of
non-authentication descriptors. -/
theorem C8_oauth_401_no_reauth :
    (∀ (fuel : Nat) (c : Client) (opts : ReqOptions) (t : Transport),
      opts.api = "/oauth" →
      counterOf opts.counter < c.retryLimit →
      t (prepare c opts).2.1 = .err (.num 401) →
      (requestP (fuel + 1) c opts t).1.outcome = .rejected (.num 401) ∧
      (requestP (fuel + 1) c opts t).1.log = [(prepare c opts).2.1] ∧
      (requestC (fuel + 1) c opts t).1.calls = [.err (.num 401)] ∧
      (requestC (fuel + 1) c opts t).1.log = [(prepare c opts).2.1]) ∧
    (∀ (e : JSVal) (api : String), shouldReauth e api = true →
      e = .num 401 ∧ api ≠ "/oauth") := by
  constructor
  · intro fuel c opts t hapi hcnt ht
    have hapi1 : (prepare c opts).1.api = opts.api := rfl
    simp only [requestP, requestC]
    rw [if_neg (not_le.mpr hcnt)]
    rcases hp : prepare c opts with ⟨o1, req, enc⟩
    rw [hp] at ht
    have ho1 : o1.api = opts.api := by rw [hp] at hapi1; exact hapi1
    simp only [ht, shouldReauth, jsIs401, ho1, hapi]
    simp [if_neg (not_le.mpr hcnt)]
  · intro e api h
    unfold shouldReauth at h
    rw [Bool.and_eq_true] at h
    obtain ⟨h1, h2⟩ := h
    constructor
    · cases e <;> simp [jsIs401] at h1
      rw [h1]
    · simpa using h2

/-- **C8, witness.**  A token request of `credClient` against the
always-401 transport: one dispatch, the 401 propagated unchanged in both
conventions, and the retry guard firing on a non-auth descriptor. -/
theorem C8_witness :
    (requestP 1 credClient (authRequestOpts (.obj []) credClient) tAll401).1.outcome
      = .rejected (.num 401) ∧
    (requestC 1 credClient (authRequestOpts (.obj []) credClient) tAll401).1.calls
      = [.err (.num 401)] ∧
    (JSVal.num 401 = JSVal.num 401 ∧ "/gfycats" ≠ "/oauth") :=
  ⟨(C8_oauth_401_no_reauth.1 0 credClient (authRequestOpts (.obj []) credClient)
      tAll401 rfl (by decide) rfl).1,
   (C8_oauth_401_no_reauth.1 0 credClient (authRequestOpts (.obj []) credClient)
      tAll401 rfl (by decide) rfl).2.2.1,
   C8_oauth_401_no_reauth.2 (.num 401) "/gfycats" (by decide)⟩

/-- **C9, counterexample.**  The claim splits construction three ways
(both credentials stored / no configuration at all anonymous / any other
malformed configuration fails with the configuration error).  A `null`
options argument fits none of the three behaviors: `typeof null` is
`"object"`, so line 41 evaluates `null.hasOwnProperty("client_id")` and
construction crashes with a `TypeError` — neither the configuration error
nor anonymous mode. -/
theorem C9_counterexample :
    GfycatSDK .null "/v1" = .typeErrorCrash "/v1" := rfl

/-- **C9, amended.**  Construction case-splits as follows: an object
(null excluded) with both `client_id` and `client_secret` own-properties
is stored with timeout defaulting to 30000 when unspecified; an
`undefined` — or any other falsy — argument succeeds in anonymous mode on
the test path prefix; `null` crashes with a `TypeError`; every remaining
argument (an object missing a credential, or a truthy non-object) fails
with the configuration error. -/
theorem C9_amended :
    (∀ (fs : List (String × JSVal)) (bp : String),
      hasOwn fs "client_id" = true → hasOwn fs "client_secret" = true →
      GfycatSDK (.obj fs) bp = .ok
        { client_id := jsGet (.obj fs) "client_id"
          client_secret := jsGet (.obj fs) "client_secret"
          timeout := jsOr (jsGet (.obj fs) "timeout") (.num 30000)
          retryLimit := 2, access_token := .undefined, token_type := .undefined
          apiUrl := API_HOSTNAME ++ bp } bp) ∧
    (∀ (fs : List (String × JSVal)) (bp : String),
      hasOwn fs "client_id" = true → hasOwn fs "client_secret" = true →
      hasOwn fs "timeout" = false →
      GfycatSDK (.obj fs) bp = .ok
        { client_id := jsGet (.obj fs) "client_id"
          client_secret := jsGet (.obj fs) "client_secret"
          timeout := .num 30000
          retryLimit := 2, access_token := .undefined, token_type := .undefined
          apiUrl := API_HOSTNAME ++ bp } bp) ∧
    (∀ bp, GfycatSDK .undefined bp = .ok anonClient "/v1test") ∧
    (∀ bp, GfycatSDK .null bp = .typeErrorCrash bp) ∧
    (∀ (fs : List (String × JSVal)) (bp : String),
      (hasOwn fs "client_id" && hasOwn fs "client_secret") = false →
      GfycatSDK (.obj fs) bp = .configError bp) ∧
    (∀ (v : JSVal) (bp : String), jsTypeof v ≠ "object" → jsTruthy v = false →
      GfycatSDK v bp = .ok anonClient "/v1test") ∧
    (∀ (v : JSVal) (bp : String), jsTypeof v ≠ "object" →
      jsTypeof v ≠ "undefined" → jsTruthy v = true →
      GfycatSDK v bp = .configError bp) := by
  refine ⟨?_, ?_, ?_, ?_, ?_, ?_, ?_⟩
  · intro fs bp h1 h2
    simp [GfycatSDK, h1, h2]
  · intro fs bp h1 h2 h3
    have hg := jsGet_obj_of_not_hasOwn fs "timeout" h3
    simp [GfycatSDK, h1, h2, hg, jsOr, jsTruthy]
  · intro bp
    rfl
  · intro bp
    rfl
  · intro fs bp h
    simp [GfycatSDK, h]
  · intro v bp h1 h2
    cases v with
    | undefined => rfl
    | null => exact absurd rfl h1
    | obj fs => exact absurd rfl h1
    | bool b => simp [jsTruthy] at h2; subst h2; rfl
    | num n => simp [jsTruthy] at h2; simp [GfycatSDK, jsTypeof, jsTruthy, h2]; rfl
    | str s => simp [jsTruthy] at h2; subst h2; rfl
  · intro v bp h1 h2 h3
    cases v with
    | undefined => exact absurd rfl h2
    | null => exact absurd rfl h1
    | obj fs => exact absurd rfl h1
    | bool b => simp [jsTruthy] at h3; subst h3; rfl
    | num n => simp [jsTruthy] at h3; simp [GfycatSDK, jsTypeof, jsTruthy, h3]
    | str s => simp [jsTruthy] at h3; simp [GfycatSDK, jsTypeof, jsTruthy, h3]

/-- **C9, witness.**  The amended case split at concrete arguments:
stored credentials with the default timeout, anonymous mode for
`undefined` and for the falsy number 0, the `null` crash, and the
configuration error for a half-credentialed object and for a truthy
string. -/
theorem C9_witness :
    GfycatSDK (.obj [("client_id", .str "a"), ("client_secret", .str "b")]) "/v1"
      = .ok
        { client_id := .str "a", client_secret := .str "b"
          timeout := .num 30000, retryLimit := 2
          access_token := .undefined, token_type := .undefined
          apiUrl := API_HOSTNAME ++ "/v1" } "/v1" ∧
    GfycatSDK .undefined "/v1" = .ok anonClient "/v1test" ∧
    GfycatSDK .null "/v1test" = .typeErrorCrash "/v1test" ∧
    GfycatSDK (.obj [("client_id", .str "a")]) "/v1" = .configError "/v1" ∧
    GfycatSDK (.num 0) "/v1" = .ok anonClient "/v1test" ∧
    GfycatSDK (.str "oops") "/v1" = .configError "/v1" :=
  ⟨C9_amended.2.1 [("client_id", .str "a"), ("client_secret", .str "b")] "/v1"
      rfl rfl rfl,
   C9_amended.2.2.1 "/v1",
   C9_amended.2.2.2.1 "/v1test",
   C9_amended.2.2.2.2.1 [("client_id", .str "a")] "/v1" rfl,
   C9_amended.2.2.2.2.2.1 (.num 0) "/v1" (by decide) rfl,
   C9_amended.2.2.2.2.2.2 (.str "oops") "/v1" (by decide) (by decide) rfl⟩

/-- **C10.**  The API base path is module-level shared state: the
anonymous constructor branch reassigns it to `/v1test` whatever it was;
no constructor call ever sets it back to `/v1`; a client constructed with
valid credentials while the module variable holds `/v1test` captures
`apiUrl` on the test prefix; and every request URL the orchestrator
builds is rooted at the constructing client's `apiUrl`. -/
theorem C10_shared_base_path :
    (∀ bp, (GfycatSDK .undefined bp).basePathAfter = "/v1test") ∧
    (∀ (fs : List (String × JSVal)),
      hasOwn fs "client_id" = true → hasOwn fs "client_secret" = true →
      GfycatSDK (.obj fs) "/v1test" = .ok
        { client_id := jsGet (.obj fs) "client_id"
          client_secret := jsGet (.obj fs) "client_secret"
          timeout := jsOr (jsGet (.obj fs) "timeout") (.num 30000)
          retryLimit := 2, access_token := .undefined, token_type := .undefined
          apiUrl := API_HOSTNAME ++ "/v1test" } "/v1test") ∧
    (∀ (o : JSVal) (bp : String),
      (GfycatSDK o bp).basePathAfter = bp ∨
      (GfycatSDK o bp).basePathAfter = "/v1test") ∧
    (∀ (c : Client) (opts : ReqOptions),
      (prepare c opts).2.1.url
        = c.apiUrl ++ opts.api ++ opts.endpoint ++ queryStringOf opts.query) := by
  refine ⟨?_, ?_, ?_, ?_⟩
  · intro bp
    rfl
  · intro fs h1 h2
    simp [GfycatSDK, h1, h2]
  · intro o bp
    unfold GfycatSDK
    split
    · left; rfl
    · split
      · left; rfl
      · left; rfl
    · split
      · right; rfl
      · left; rfl
  · intro c opts
    rfl

/-- **C10, witness.**  The poisoning sequence: one anonymous construction
from the pristine `/v1` module state flips the shared base path, and a
subsequent fully-credentialed client is built on
`https://api.gfycat.com/v1test`. -/
theorem C10_witness :
    (GfycatSDK .undefined "/v1").basePathAfter = "/v1test" ∧
    GfycatSDK (.obj [("client_id", .str "a"), ("client_secret", .str "b")]) "/v1test"
      = .ok
        { client_id := .str "a", client_secret := .str "b"
          timeout := .num 30000, retryLimit := 2
          access_token := .undefined, token_type := .undefined
          apiUrl := API_HOSTNAME ++ "/v1test" } "/v1test" :=
  ⟨C10_shared_base_path.1 "/v1",
   C10_shared_base_path.2.1 [("client_id", .str "a"), ("client_secret", .str "b")]
     rfl rfl⟩

end GfycatSdk
